import Mathlib

/-!
Verification of the senlin cluster action engine
(`senlin/engine/actions/cluster_action.py`) against its natural-language
specification.  The Python source is shallowly embedded: the mutable
state of a `ClusterAction` run (the cluster record, the action scratch
data, the dispatched sub-actions, the status transitions, the stored
records) is threaded explicitly through every function, Python
exceptions become an error type `Halt`, and the external collaborators
(node store, policy store, policy hooks, randomness, the coordinator's
poll observations) are oracles supplied as inputs.
-/

/-- Terminal results of an action execution.  The value set is taken
from the spec (section 6): `execute(action_record) -> (result in
{OK, ERROR, CANCEL, TIMEOUT, RETRY, FAILED}, reason)`; the source refers
to them as `self.RES_OK`, `self.RES_ERROR`, etc. -/
inductive Res where
  | RES_OK
  | RES_ERROR
  | RES_RETRY
  | RES_CANCEL
  | RES_TIMEOUT
  | RES_FAILED
  deriving DecidableEq

/-- Statuses of an action record, as polled by the coordinator
(`self.status` in `_wait_for_dependents`). -/
inductive ActStatus where
  | INIT
  | WAITING
  | READY
  | RUNNING
  | SUCCEEDED
  | FAILED
  | CANCELLED
  deriving DecidableEq

/-- One observation point of the coordinator loop: the action's status
as refreshed by `get_status()`, together with the values the two flag
polls `is_cancelled()` and `is_timeout()` would return at that point. -/
structure Obs where
  status : ActStatus
  cancelled : Bool
  timedOut : Bool
  deriving DecidableEq

/-- A Python return value of `_wait_for_dependents`: either a
two-element tuple `(res, reason)` or a bare result value (the source's
`return self.RES_TIMEOUT` at line 82 returns no tuple). -/
inductive WaitRet where
  | pair : Res → String → WaitRet
  | single : Res → WaitRet
  deriving DecidableEq

/-- Reason built in the FAILED branch of `_wait_for_dependents`:
`'%(action)s [%(id)s] failed due to dependent action failure'`. -/
def failed_reason (action id : String) : String :=
  action ++ " [" ++ id ++ "] failed due to dependent action failure"

/-- Reason built in the cancel branch of `_wait_for_dependents`:
`'%(action)s %(id)s cancelled'`. -/
def cancelled_reason (action id : String) : String :=
  action ++ " " ++ id ++ " cancelled"

/-- One iteration of the `while self.status != self.READY` loop in
`_wait_for_dependents` (cluster_action.py lines 60-86), applied to one
observation point.  `none` means the loop body falls through to
`scheduler.reschedule` and polls again.  The branch order is the
source's: the READY exit, then FAILED, then `is_cancelled()`, then
`is_timeout()`.  The timeout branch builds a reason string but returns
only `self.RES_TIMEOUT`, hence `WaitRet.single`. -/
def wait_observe (action id : String) (o : Obs) : Option WaitRet :=
  if o.status = .READY then
    some (.pair .RES_OK "All dependents ended with success")
  else if o.status = .FAILED then
    some (.pair .RES_ERROR (failed_reason action id))
  else if o.cancelled then
    some (.pair .RES_CANCEL (cancelled_reason action id))
  else if o.timedOut then
    some (.single .RES_TIMEOUT)
  else
    none

/-- `_wait_for_dependents` over a finite trace of observation points
(one entry per pass through the loop).  `none` means the trace was
exhausted with the coordinator still waiting. -/
def wait_for_dependents (action id : String) : List Obs → Option WaitRet
  | [] => none
  | o :: rest =>
    match wait_observe action id o with
    | some r => some r
    | none => wait_for_dependents action id rest

/-- Claim C1 (counterexample): at an observation point where the cancel
flag is set and the deadline has elapsed simultaneously, the coordinator
resolves the wait as CANCEL, not TIMEOUT — `is_cancelled()` is polled
before `is_timeout()` — refuting the claim that timeout is preferred. -/
theorem C1_counterexample :
    wait_for_dependents "CLUSTER_DELETE" "A1" [⟨.WAITING, true, true⟩] =
      some (.pair .RES_CANCEL (cancelled_reason "CLUSTER_DELETE" "A1")) ∧
    wait_for_dependents "CLUSTER_DELETE" "A1" [⟨.WAITING, true, true⟩] ≠
      some (.single .RES_TIMEOUT) ∧
    (∀ s : String,
      wait_for_dependents "CLUSTER_DELETE" "A1" [⟨.WAITING, true, true⟩] ≠
        some (.pair .RES_TIMEOUT s)) := by
  refine ⟨rfl, by decide, ?_⟩
  intro s h
  rw [show wait_for_dependents "CLUSTER_DELETE" "A1" [⟨.WAITING, true, true⟩] =
      some (.pair .RES_CANCEL (cancelled_reason "CLUSTER_DELETE" "A1")) from rfl] at h
  simp at h

/-- Claim C1 (amended): whenever the first resolving observation of the
wait loop has the cancel flag set (and the dependents are neither READY
nor FAILED there), the coordinator resolves the wait as CANCEL even if
the deadline has also elapsed at that same observation point: cancel is
preferred over timeout, not the other way around. -/
theorem C1_amended (action id : String) (pre rest : List Obs) (o : Obs)
    (hpre : ∀ p ∈ pre, wait_observe action id p = none)
    (h1 : o.status ≠ .READY) (h2 : o.status ≠ .FAILED)
    (h3 : o.cancelled = true) :
    wait_for_dependents action id (pre ++ o :: rest) =
      some (.pair .RES_CANCEL (cancelled_reason action id)) := by
  induction pre with
  | nil =>
    simp [wait_for_dependents, wait_observe, h1, h2, h3]
  | cons p ps ih =>
    have hp := hpre p (by simp)
    simp only [List.cons_append, wait_for_dependents, hp]
    exact ih (fun q hq => hpre q (by simp [hq]))

/-- Witness for `C1_amended` at a concrete trace: one waiting
observation with both flags set, preceded by one quiet observation. -/
theorem C1_amended_witness :
    ((∀ p ∈ [Obs.mk .WAITING false false],
        wait_observe "CLUSTER_CREATE" "A9" p = none) ∧
      (Obs.mk .WAITING true true).status ≠ .READY ∧
      (Obs.mk .WAITING true true).status ≠ .FAILED ∧
      (Obs.mk .WAITING true true).cancelled = true) ∧
    wait_for_dependents "CLUSTER_CREATE" "A9"
        ([Obs.mk .WAITING false false] ++ Obs.mk .WAITING true true :: []) =
      some (.pair .RES_CANCEL (cancelled_reason "CLUSTER_CREATE" "A9")) :=
  ⟨⟨by decide, by decide, by decide, rfl⟩,
    C1_amended "CLUSTER_CREATE" "A9" [Obs.mk .WAITING false false] []
      (Obs.mk .WAITING true true) (by decide) (by decide) (by decide) rfl⟩

/-- Claim C9: the TIMEOUT branch of `_wait_for_dependents` does not
return a `(result, reason)` pair: it returns the bare value
`self.RES_TIMEOUT` (cluster_action.py line 82), so a caller that
unpacks the return value into two variables (e.g. `_create_nodes`,
line 133) fails on that branch. -/
theorem C9_timeout_returns_no_pair :
    wait_for_dependents "CLUSTER_CREATE" "A2" [⟨.WAITING, false, true⟩] =
      some (.single .RES_TIMEOUT) ∧
    (∀ (res : Res) (reason : String),
      wait_for_dependents "CLUSTER_CREATE" "A2" [⟨.WAITING, false, true⟩] ≠
        some (.pair res reason)) := by
  refine ⟨rfl, ?_⟩
  intro res reason h
  rw [show wait_for_dependents "CLUSTER_CREATE" "A2" [⟨.WAITING, false, true⟩] =
      some (.single .RES_TIMEOUT) from rfl] at h
  simp at h

/-- Statuses of a node record (`node_mod.Node`). -/
inductive NodeStatus where
  | INIT
  | ACTIVE
  | ERROR
  deriving DecidableEq

/-- Statuses of a cluster record. -/
inductive ClusterStatus where
  | INIT
  | CREATING
  | ACTIVE
  | UPDATING
  | DELETING
  | ERROR
  | WARNING
  deriving DecidableEq

/-- A node record, with the fields `do_add_nodes` / `do_del_nodes`
inspect: identity, owning cluster (nullable) and status. -/
structure Node where
  id : String
  cluster_id : Option String := none
  status : NodeStatus := .ACTIVE
  deriving DecidableEq

/-- A policy record, with the fields `do_attach_policy` inspects. -/
structure Policy where
  id : String
  type : String
  deriving DecidableEq

/-- A cluster-policy binding (`cp_mod.ClusterPolicy`). -/
structure ClusterPolicy where
  cluster_id : String
  policy_id : String
  priority : Int := 0
  cooldown : Int := 0
  level : Int := 0
  enabled : Bool := true
  data : String := ""
  deriving DecidableEq

/-- The cluster record as the handlers read and write it.  `nodes` is
the runtime node list (`cluster.get_nodes()`, also the value of
`db_api.node_get_all_by_cluster` in this single-writer model).  The
`updated_time` timestamp is not modelled. -/
structure Cluster where
  id : String
  profile_id : String := ""
  user : String := ""
  project : String := ""
  domain : String := ""
  min_size : Int
  max_size : Int
  desired_capacity : Int
  status : ClusterStatus := .ACTIVE
  status_reason : String := ""
  nodes : List Node := []
  deriving DecidableEq

/-- Adjustment types of the RESIZE operation (spec section 4.5). -/
inductive AdjType where
  | EXACT_CAPACITY
  | CHANGE_IN_CAPACITY
  | CHANGE_IN_PERCENTAGE
  deriving DecidableEq

/-- The action's `inputs` dict.  Every key the handlers read is an
optional field; `none` is an absent key. -/
structure Inputs where
  nodes : Option (List String) := none
  count : Option Int := none
  new_profile_id : Option String := none
  policy_id : Option String := none
  priority : Option Int := none
  cooldown : Option Int := none
  level : Option Int := none
  enabled : Option Bool := none
  adjustment_type : Option AdjType := none
  number : Option Int := none
  min_size : Option Int := none
  max_size : Option Int := none
  min_step : Option Int := none
  strict : Option Bool := none
  deriving DecidableEq

/-- Result statuses of a policy check (`policy_mod.CHECK_OK` /
`CHECK_ERROR`); modelled from the spec, section 4.4 (status in
{OK, FAILURE}). -/
inductive CheckStatus where
  | CHECK_OK
  | CHECK_ERROR
  deriving DecidableEq

/-- The `deletion` entry of the action's scratch data. -/
structure DeletionData where
  count : Option Int := none
  candidates : Option (List String) := none
  destroy_after_delete : Option Bool := none
  deriving DecidableEq

/-- The `creation` entry of the action's scratch data. -/
structure CreationData where
  count : Option Int := none
  deriving DecidableEq

/-- The action's scratch `data` dict.  Note that it has both a nested
`deletion.candidates` key (the shape the spec's data model gives for
policy output) and a top-level `candidates` key (the key `do_scale_in`
actually reads). -/
structure ActionData where
  deletion : Option DeletionData := none
  creation : Option CreationData := none
  candidates : Option (List String) := none
  placement : Option (List String) := none
  nodes : Option (List String) := none
  status : Option CheckStatus := none
  reason : Option String := none
  deriving DecidableEq

/-- A dispatched DERIVED sub-action: name, action kind, target node id
and the inputs the handlers pass. -/
structure SubAction where
  name : String
  action : String
  target : String
  inputs_cluster_id : Option String := none
  inputs_new_profile_id : Option String := none
  deriving DecidableEq

/-- The identity of the running cluster action: its action name, its
id, and its (immutable) inputs. -/
structure ActionCtx where
  action : String
  id : String
  inputs : Inputs := {}
  deriving DecidableEq

/-- A raised Python exception (or a modelling artifact `hang` for an
oracle that ran out: an exhausted observation trace or random stream,
i.e. an execution that never returns). -/
inductive Halt where
  | hang
  | valueError (msg : String)
  | keyError (key : String)
  | indexError
  | typeError (msg : String)
  | policyTypeConflict (ptype : String)
  | policyNotSpecified
  | policyNotFound (pid : String)
  deriving DecidableEq

/-- The mutable state threaded through a handler run: the in-memory
cluster object, the action's scratch data, the db-side `next_index`
counter, the binding table, and the logs of observable effects
(dispatched sub-actions, `set_status` calls, `cluster.store` calls,
cluster teardown), plus the two consumable oracles (random stream,
coordinator observation traces — one trace per `_wait_for_dependents`
call). -/
structure St where
  cluster : Cluster
  data : ActionData := {}
  next_index : Nat := 1
  bindings : List ClusterPolicy := []
  dispatched : List SubAction := []
  statusLog : List (ClusterStatus × String) := []
  storeCount : Nat := 0
  destroyed : Bool := false
  rng : List Nat := []
  traces : List (List Obs) := []
  deriving DecidableEq

/-- Read-only oracles for the external collaborators: node and policy
lookup by id, the policy attach hook's verdict and data, the cluster
teardown result (`cluster.do_delete`), and the `cluster.store` result. -/
structure Env where
  nodeById : String → Option Node := fun _ => none
  policyById : String → Option Policy := fun _ => none
  attachOk : Bool := true
  attachData : String := ""
  teardownOk : Bool := true
  storeOk : Bool := true

/-- `cluster.set_status(context, status, reason)`: updates the
in-memory cluster object and persists the transition (logged). -/
def set_status (c : ClusterStatus) (r : String) (st : St) : St :=
  { st with
    cluster := { st.cluster with status := c, status_reason := r },
    statusLog := st.statusLog ++ [(c, r)] }

/-- One `_wait_for_dependents()` call inside a handler: consumes the
next observation trace from the state.  An exhausted oracle is the
non-terminating wait (`Halt.hang`). -/
def run_wait (self : ActionCtx) (st : St) : EStateM.Result Halt St WaitRet :=
  match st.traces with
  | [] => .error .hang st
  | t :: rest =>
    match wait_for_dependents self.action self.id t with
    | none => .error .hang { st with traces := rest }
    | some r => .ok r { st with traces := rest }

/-- Python tuple unpacking `res, reason = w` applied to a return value
of `_wait_for_dependents`: a bare (non-pair) return value such as
`RES_TIMEOUT` raises at the unpacking site. -/
def unpack2 : WaitRet → Except Halt (Res × String)
  | .pair r s => .ok (r, s)
  | .single _ => .error (.valueError "too many values to unpack")

/-- The shared tail of `_delete_nodes` and `_create_nodes`: one
`res, reason = self._wait_for_dependents()` call (the unpacking raises
on a bare return value), recording the node ids in `data['nodes']` when
the result is OK. -/
def wait_and_record (self : ActionCtx) (nodes : List String) (st : St) :
    EStateM.Result Halt St (Res × String) :=
  match run_wait self st with
  | .error e st => .error e st
  | .ok w st =>
    match unpack2 w with
    | .error e => .error e st
    | .ok (res, reason) =>
      if res = .RES_OK then
        .ok (res, reason) { st with data := { st.data with nodes := some nodes } }
      else
        .ok (res, reason) st

/-- `_delete_nodes(cluster, nodes)` (cluster_action.py lines 197-225):
chooses NODE_DELETE vs NODE_LEAVE from `deletion.destroy_after_delete`
(default True), dispatches one DERIVED sub-action per node id, then
waits for the dependents once when the list is non-empty, recording the
node ids in `data['nodes']` on success. -/
def delete_nodes (self : ActionCtx) (nodes : List String) (st : St) :
    EStateM.Result Halt St (Res × String) :=
  let action_name : String :=
    match st.data.deletion with
    | some pd => if pd.destroy_after_delete.getD true then "NODE_DELETE" else "NODE_LEAVE"
    | none => "NODE_DELETE"
  let st := { st with
    dispatched := st.dispatched ++ nodes.map (fun nid =>
      { name := "node_delete_" ++ nid.take 8, action := action_name, target := nid }) }
  if nodes.length > 0 then
    wait_and_record self nodes st
  else
    .ok (.RES_OK, "") st

/-- Zero-padded index as in the node name format `'%003d'`. -/
def pad3 (n : Nat) : String :=
  if n < 10 then "00" ++ toString n
  else if n < 100 then "0" ++ toString n
  else toString n

/-- The node-creation loop of `_create_nodes` (lines 95-129): for each
of `count` new nodes, read the db cluster's `next_index`, build the
deterministic node name, attach the m-th `placement` hint when a hint
list is present (an out-of-range hint index raises, as Python list
indexing does), store the node (bumping `next_index`) and dispatch a
DERIVED NODE_CREATE sub-action targeting it.  Returns the created node
ids. -/
def create_loop (cluster : Cluster) (placement : Option (List String)) :
    Nat → Nat → List String → St → EStateM.Result Halt St (List String)
  | 0, _, acc, st => .ok acc st
  | n + 1, m, acc, st =>
    let index := st.next_index
    let node_id := "node-" ++ cluster.id.take 8 ++ "-" ++ pad3 index
    match placement with
    | some p =>
      if m < p.length then
        let st := { st with
          next_index := st.next_index + 1,
          dispatched := st.dispatched ++
            [{ name := "node_create_" ++ node_id.take 8, action := "NODE_CREATE",
               target := node_id }] }
        create_loop cluster placement n (m + 1) (acc ++ [node_id]) st
      else
        .error .indexError st
    | none =>
      let st := { st with
        next_index := st.next_index + 1,
        dispatched := st.dispatched ++
          [{ name := "node_create_" ++ node_id.take 8, action := "NODE_CREATE",
             target := node_id }] }
      create_loop cluster placement n (m + 1) (acc ++ [node_id]) st

/-- `_create_nodes(cluster, count)` (lines 90-138): run the creation
loop, then wait for the dependents once when `count > 0`, recording the
created node ids in `data['nodes']` on success. -/
def create_nodes (self : ActionCtx) (cluster : Cluster) (count : Int) (st : St) :
    EStateM.Result Halt St (Res × String) :=
  let placement := st.data.placement
  match create_loop cluster placement count.toNat 0 [] st with
  | .error e st => .error e st
  | .ok nodes st =>
    if count > 0 then
      wait_and_record self nodes st
    else
      .ok (.RES_OK, "") st

/-- `do_delete(cluster)` (cluster_action.py lines 227-253): set the
cluster DELETING, replace the scratch `deletion` entry with
`{'destroy_after_delete': True}`, delete every node, then interpret the
coordinator's verdict: OK tears the cluster object down (ERROR if the
teardown fails), CANCEL restores ACTIVE, TIMEOUT/ERROR set WARNING. -/
def do_delete (env : Env) (self : ActionCtx) (st : St) :
    EStateM.Result Halt St (Res × String) :=
  let reason := "Deletion in progress"
  let st := set_status .DELETING reason st
  let nodes := st.cluster.nodes.map Node.id
  let st := { st with
    data := { st.data with
      deletion := some { destroy_after_delete := some true } } }
  match delete_nodes self nodes st with
  | .error e st => .error e st
  | .ok (result, reason) st =>
    if result = .RES_OK then
      if env.teardownOk then
        .ok (result, reason) { st with destroyed := true }
      else
        .ok (.RES_ERROR, "Cannot delete cluster object.") st
    else if result = .RES_CANCEL then
      .ok (result, reason) (set_status .ACTIVE reason st)
    else if result = .RES_TIMEOUT ∨ result = .RES_ERROR then
      .ok (result, reason) (set_status .WARNING reason st)
    else
      .ok (result, reason) st

/-- The failure message `'Node already owned by cluster %s'`. -/
def owned_reason (cid : String) : String :=
  "Node already owned by cluster " ++ cid

/-- Python `str(failures)` on the failures dict. -/
def str_failures (l : List (String × String)) : String :=
  "\x7b" ++ String.intercalate ", "
    (l.map (fun kv => "\x27" ++ kv.1 ++ "\x27: \x27" ++ kv.2 ++ "\x27")) ++ "\x7d"

/-- The validation loop of `do_add_nodes` (lines 259-277), embedded
with Python's exact iteration semantics: the `for` loop walks the list
by an internal index that advances every iteration, while the
already-in-cluster branch removes the current element from the very
list being iterated (`nodes.remove(node_id)`), which shifts the
remainder left and silently skips the next element.  The loop variable
`node` keeps its last assigned value after the loop (returned here as
the third component). -/
def add_validate (env : Env) (cid : String) (lst : List String) (i : Nat)
    (failures : List (String × String)) (lastNode : Option Node) :
    List String × List (String × String) × Option Node :=
  if hi : i < lst.length then
    let nid := lst.get ⟨i, hi⟩
    match env.nodeById nid with
    | none => add_validate env cid lst (i + 1)
        (failures ++ [(nid, "Node not found")]) lastNode
    | some node =>
      if node.cluster_id = some cid then
        add_validate env cid (lst.erase nid) (i + 1) failures (some node)
      else if node.cluster_id.isSome then
        add_validate env cid lst (i + 1)
          (failures ++ [(nid, owned_reason (node.cluster_id.getD ""))]) (some node)
      else if node.status ≠ .ACTIVE then
        add_validate env cid lst (i + 1)
          (failures ++ [(nid, "Node not in ACTIVE status")]) (some node)
      else
        add_validate env cid lst (i + 1) failures (some node)
  else
    (lst, failures, lastNode)
termination_by lst.length + 1 - i
decreasing_by
all_goals
  have hl : (lst.erase (lst.get ⟨i, hi⟩)).length ≤ lst.length :=
    (List.erase_sublist (lst.get ⟨i, hi⟩) lst).length_le
  omega

/-- The continuation of `do_add_nodes` after its validation loop
(lines 279-304): return ERROR (with the stringified failures map) when
any failure was collected, OK when no node remains, and otherwise
dispatch one NODE_JOIN per remaining entry — with the source's slip:
the sub-action name and target use `node.id`, the node loaded last by
the validation loop, not the iteration variable — then wait once and
record the surviving ids in `data['nodes']` on OK. -/
def add_nodes_after_validate (self : ActionCtx) (st : St)
    (v : List String × List (String × String) × Option Node) :
    EStateM.Result Halt St (Res × String) :=
  let nodes := v.1
  let failures := v.2.1
  let lastNode := v.2.2
  if failures.length > 0 then
    .ok (.RES_ERROR, str_failures failures) st
  else
    let reason := "Completed adding nodes"
    if nodes.length = 0 then
      .ok (.RES_OK, reason) st
    else
      let tgt := (lastNode.map Node.id).getD ""
      let st := { st with
        dispatched := st.dispatched ++ nodes.map (fun _ =>
          { name := "node_join_" ++ tgt.take 8, action := "NODE_JOIN",
            target := tgt, inputs_cluster_id := some st.cluster.id }) }
      match run_wait self st with
      | .error e st => .error e st
      | .ok w st =>
        match unpack2 w with
        | .error e => .error e st
        | .ok (result, new_reason) =>
          if result ≠ .RES_OK then
            .ok (result, new_reason) st
          else
            .ok (result, reason)
              { st with data := { st.data with nodes := some nodes } }

/-- `do_add_nodes(cluster)` (lines 255-304), assembled from the
validation loop and its continuation. -/
def do_add_nodes (env : Env) (self : ActionCtx) (st : St) :
    EStateM.Result Halt St (Res × String) :=
  match self.inputs.nodes with
  | none => .error (.typeError "NoneType object is not iterable") st
  | some nodes0 =>
    add_nodes_after_validate self st
      (add_validate env st.cluster.id nodes0 0 [] none)

/-- Diagnostic of `_check_size_params`, strict check 1. -/
def tgt_lt_spec_min (d m : Int) : String :=
  "The target capacity (" ++ toString d ++
    ") is less than the specified min_size (" ++ toString m ++ ")."

/-- Diagnostic of `_check_size_params`, strict check 2. -/
def tgt_lt_clus_min (d m : Int) : String :=
  "The target capacity (" ++ toString d ++
    ") is less than the cluster\x27s min_size (" ++ toString m ++ ")."

/-- Diagnostic of `_check_size_params`, strict check 3. -/
def tgt_gt_spec_max (d m : Int) : String :=
  "The target capacity (" ++ toString d ++
    ") is greater than the specified max_size (" ++ toString m ++ ")."

/-- Diagnostic of `_check_size_params`, strict check 4. -/
def tgt_gt_clus_max (d m : Int) : String :=
  "The target capacity (" ++ toString d ++
    ") is greater than the cluster\x27s max_size (" ++ toString m ++ ")."

/-- The strict min-bound checks of `_check_size_params` (lines
352-362): against the specified `min_size` when provided, else against
the cluster's own `min_size`. -/
def strict_min_check (c : Cluster) (d : Int) (min_size : Option Int) :
    Option (Res × String) :=
  match min_size with
  | some m => if d < m then some (.RES_ERROR, tgt_lt_spec_min d m) else none
  | none =>
    if d < c.min_size then some (.RES_ERROR, tgt_lt_clus_min d c.min_size)
    else none

/-- The strict max-bound checks of `_check_size_params` (lines
364-376): against the specified `max_size` when provided and
non-negative, else against the cluster's own non-negative `max_size`.
A negative max means unbounded. -/
def strict_max_check (c : Cluster) (d : Int) (max_size : Option Int) :
    Option (Res × String) :=
  match max_size with
  | some m =>
    if d > m ∧ m ≥ 0 then some (.RES_ERROR, tgt_gt_spec_max d m) else none
  | none =>
    if d > c.max_size ∧ c.max_size ≥ 0 then
      some (.RES_ERROR, tgt_gt_clus_max d c.max_size)
    else none

/-- The `if min_size is not None` block of `_check_size_params` (lines
378-393): consistency of a newly provided `min_size` against the (new
or current) `max_size` and, when the desired capacity is not being
changed, against the current `desired_capacity`. -/
def min_size_block (c : Cluster) (desired min_size max_size : Option Int) :
    Option (Res × String) :=
  match min_size with
  | none => none
  | some m =>
    match max_size with
    | some M =>
      if M ≥ 0 ∧ m > M then
        some (.RES_ERROR,
          "The specified min_size is greater than the specified max_size.")
      else if desired = none ∧ m > c.desired_capacity then
        some (.RES_ERROR,
          "The specified min_size is greater than the current desired_capacity of the cluster.")
      else none
    | none =>
      if c.max_size ≥ 0 ∧ m > c.max_size then
        some (.RES_ERROR,
          "The specified min_size is greater than the current max_size of the cluster.")
      else if desired = none ∧ m > c.desired_capacity then
        some (.RES_ERROR,
          "The specified min_size is greater than the current desired_capacity of the cluster.")
      else none

/-- The `if max_size is not None` block of `_check_size_params` (lines
395-404). -/
def max_size_block (c : Cluster) (desired min_size max_size : Option Int) :
    Option (Res × String) :=
  match max_size with
  | none => none
  | some M =>
    if min_size = none ∧ M ≥ 0 ∧ M < c.min_size then
      some (.RES_ERROR,
        "The specified max_size is less than the current min_size of the cluster.")
    else if desired = none ∧ M < c.desired_capacity then
      some (.RES_ERROR,
        "The specified max_size is less than the current desired_capacity of the cluster.")
    else none

/-- `_check_size_params(cluster, desired, min_size, max_size, strict)`
(lines 341-406): the strict desired-vs-bounds checks run only when
`desired` is provided and `strict` is True; the two consistency blocks
always run; first failing check wins. -/
def check_size_params (c : Cluster) (desired min_size max_size : Option Int)
    (strict : Bool) : Res × String :=
  let strictRes : Option (Res × String) :=
    match desired with
    | some d =>
      if strict then
        (strict_min_check c d min_size).orElse
          (fun _ => strict_max_check c d max_size)
      else none
    | none => none
  match strictRes with
  | some r => r
  | none =>
    match min_size_block c desired min_size max_size with
    | some r => r
    | none =>
      match max_size_block c desired min_size max_size with
      | some r => r
      | none => (.RES_OK, "")

/-- `_update_cluster_properties(cluster, desired, min_size, max_size)`
(lines 408-435): write any provided, changed bound or capacity onto the
in-memory cluster; when nothing changed only refresh the runtime node
list; otherwise persist, and on a store failure reset the cluster to
ACTIVE and return ERROR. -/
def update_cluster_properties (env : Env) (desired min_size max_size : Option Int)
    (st : St) : EStateM.Result Halt St (Res × String) :=
  let c0 := st.cluster
  let (c1, ns1) :=
    match min_size with
    | some m => if m ≠ c0.min_size then ({ c0 with min_size := m }, true) else (c0, false)
    | none => (c0, false)
  let (c2, ns2) :=
    match max_size with
    | some m => if m ≠ c1.max_size then ({ c1 with max_size := m }, true) else (c1, false)
    | none => (c1, false)
  let (c3, ns3) :=
    match desired with
    | some d =>
      if d ≠ c2.desired_capacity then ({ c2 with desired_capacity := d }, true)
      else (c2, false)
    | none => (c2, false)
  if ns1 = false ∧ ns2 = false ∧ ns3 = false then
    -- `cluster._load_runtime_data`: refresh the runtime node list only
    .ok (.RES_OK, "") { st with cluster := c3 }
  else
    let c4 := { c3 with status_reason := "Cluster properties updated." }
    if env.storeOk then
      .ok (.RES_OK, "") { st with cluster := c4, storeCount := st.storeCount + 1 }
    else
      .ok (.RES_ERROR, "Cluster object cannot be updated.")
        (set_status .ACTIVE "Cluster object cannot be updated." { st with cluster := c4 })

/-- Modelled from the spec: `scaleutils.calculate_desired(current,
adj_type, number, min_step)` is repository code not under src/; spec
section 4.5 gives EXACT_CAPACITY -> number, CHANGE_IN_CAPACITY ->
current + number, CHANGE_IN_PERCENTAGE -> current + delta where delta
is current*number/100 rounded away from zero and floored in magnitude
at `min_step` (in the direction of `number`) when a step is given. -/
def calculate_desired (current : Int) (adjType : AdjType) (number : Int)
    (minStep : Option Int) : Int :=
  match adjType with
  | .EXACT_CAPACITY => number
  | .CHANGE_IN_CAPACITY => current + number
  | .CHANGE_IN_PERCENTAGE =>
    let num := current * number
    let mag : Int := ((num.natAbs + 99) / 100 : Nat)
    let delta := if num ≥ 0 then mag else -mag
    let delta :=
      match minStep with
      | some ms =>
        if (delta.natAbs : Int) < ms then (if number > 0 then ms else -ms) else delta
      | none => delta
    current + delta

/-- Modelled from the spec: `scaleutils.truncate_desired(cluster,
desired, min_size, max_size)` is repository code not under src/; spec
section 4.5 says it clamps `desired` to the effective bounds, falling
back to the cluster's own fields for an absent argument, with a
negative max meaning unbounded. -/
def truncate_desired (c : Cluster) (desired : Int) (min_size max_size : Option Int) :
    Int :=
  let lo := min_size.getD c.min_size
  let hi := max_size.getD c.max_size
  let d := if desired < lo then lo else desired
  if hi ≥ 0 ∧ d > hi then hi else d

/-- The tentative desired capacity of `do_resize` (lines 445-449): the
current capacity unless an adjustment type is given, in which case the
capacity arithmetic runs (Python would raise on the arithmetic if
`number` were absent). -/
def resize_desired (self : ActionCtx) (c : Cluster) : Except Halt Int :=
  match self.inputs.adjustment_type with
  | none => .ok c.desired_capacity
  | some t =>
    match self.inputs.number with
    | none => .error (.typeError "unsupported operand type for NoneType")
    | some n => .ok (calculate_desired c.desired_capacity t n self.inputs.min_step)

/-- The random victim-selection loop shared by `do_resize` (lines
480-485) and `do_scale_in` (lines 572-577): pick an index with
`random.randrange(len(nodes))` (the oracle stream supplies the draw,
taken modulo the list length; `randrange` on an empty list raises),
append that node's id and remove it from the local list, `i` times. -/
def choose_random (nodes : List Node) (i : Nat) (rng : List Nat) :
    Except Halt (List String × List Nat) :=
  match i with
  | 0 => .ok ([], rng)
  | i' + 1 =>
    match rng with
    | [] => .error .hang
    | r :: rng' =>
      if hlen : nodes.length = 0 then
        .error (.valueError "empty range for randrange")
      else
        let idx := r % nodes.length
        let node := nodes.get ⟨idx, Nat.mod_lt r (Nat.pos_of_ne_zero hlen)⟩
        match choose_random (nodes.eraseIdx idx) i' rng' with
        | .ok (rest, rng'') => .ok (node.id :: rest, rng'')
        | .error e => .error e

/-- The shrink step of `do_resize` (lines 474-489): when the desired
capacity is below the current node count, default the scratch
`deletion` entry to the adjustment count, choose the victims randomly
and delete them; otherwise pass the incoming reason through as OK. -/
def resize_shrink (self : ActionCtx) (reason0 : String) (st : St) :
    EStateM.Result Halt St (Res × String) :=
  let node_list := st.cluster.nodes
  let current_size : Int := node_list.length
  let desired := st.cluster.desired_capacity
  if desired < current_size then
    let adjustment := current_size - desired
    let st := if st.data.deletion = none then
        { st with data := { st.data with deletion := some { count := some adjustment } } }
      else st
    match choose_random node_list adjustment.toNat st.rng with
    | .error e => .error e st
    | .ok (candidates, rng') => delete_nodes self candidates { st with rng := rng' }
  else
    .ok (.RES_OK, reason0) st

/-- The grow step of `do_resize` (lines 492-498): when the desired
capacity exceeds the current node count, default the scratch `creation`
entry to the delta and create that many nodes; otherwise pass the
incoming reason through as OK. -/
def resize_grow (self : ActionCtx) (reason0 : String) (st : St) :
    EStateM.Result Halt St (Res × String) :=
  let current_size : Int := st.cluster.nodes.length
  let desired := st.cluster.desired_capacity
  if desired > current_size then
    let delta := desired - current_size
    let st := if st.data.creation = none then
        { st with data := { st.data with creation := some { count := some delta } } }
      else st
    create_nodes self st.cluster delta st
  else
    .ok (.RES_OK, reason0) st

/-- The fan-out tail of `do_resize` (lines 469-501): delete victims
when over capacity, create nodes when under capacity (each branch
returning early on a non-OK verdict, and a branch that does not run
passes the incoming reason through as OK), then set the cluster ACTIVE
with the last reason. -/
def resize_fanout (self : ActionCtx) (reason0 : String) (st : St) :
    EStateM.Result Halt St (Res × String) :=
  match resize_shrink self reason0 st with
  | .error e st => .error e st
  | .ok (res1, reason1) st =>
    if res1 ≠ .RES_OK then
      .ok (res1, reason1) st
    else
      match resize_grow self reason1 st with
      | .error e st => .error e st
      | .ok (res2, reason2) st =>
        if res2 ≠ .RES_OK then
          .ok (res2, reason2) st
        else
          .ok (.RES_OK, "Cluster resize succeeded")
            (set_status .ACTIVE reason2 st)

/-- `do_resize(cluster)` (lines 437-501): compute the tentative desired
capacity, truncate it to the effective bounds unless `strict`, validate
with `_check_size_params` (ERROR returns untouched state), persist the
sanitized properties, then fan out node deletions/creations. -/
def do_resize (env : Env) (self : ActionCtx) (st : St) :
    EStateM.Result Halt St (Res × String) :=
  let c := st.cluster
  let strict := self.inputs.strict.getD false
  match resize_desired self c with
  | .error e => .error e st
  | .ok desired0 =>
    let desired1 :=
      if strict = false then
        truncate_desired c desired0 self.inputs.min_size self.inputs.max_size
      else desired0
    match check_size_params c (some desired1) self.inputs.min_size
        self.inputs.max_size strict with
    | (res, reason) =>
      if res ≠ .RES_OK then
        .ok (res, reason) st
      else
        match update_cluster_properties env (some desired1) self.inputs.min_size
            self.inputs.max_size st with
        | .error e st => .error e st
        | .ok (res, reason) st =>
          if res ≠ .RES_OK then
            .ok (res, reason) st
          else
            resize_fanout self reason st

/-- `do_scale_in(cluster)` (lines 541-591): take the count from the
scratch `deletion` entry when a policy populated one (falling back to
1), in which case the candidate list is read from the TOP-LEVEL
`data['candidates']` key — not from `deletion.candidates`; otherwise
take the count from the inputs.  A zero count is a no-op.  Update the
desired capacity (no bounds check), choose random victims when no
candidates were found, delete them, and map the verdict onto the
cluster status. -/
def do_scale_in (env : Env) (self : ActionCtx) (st : St) :
    EStateM.Result Halt St (Res × String) :=
  let countCand : Int × List String :=
    match st.data.deletion with
    | some pd =>
      (pd.count.getD 1,
        match st.data.candidates with
        | some l => if l.isEmpty then [] else l
        | none => [])
    | none => (self.inputs.count.getD 1, [])
  let count := countCand.1
  let candidates0 := countCand.2
  if count = 0 then
    .ok (.RES_OK, "No scaling needed based on policy checking") st
  else
    let current_size : Int := st.cluster.nodes.length
    let desired_capacity := current_size - count
    match update_cluster_properties env (some desired_capacity) none none st with
    | .error e st => .error e st
    | .ok (result, reason) st =>
      if result ≠ .RES_OK then
        .ok (result, reason) st
      else
        let chosen : Except Halt (List String × List Nat) :=
          if candidates0.length = 0 then
            choose_random st.cluster.nodes count.toNat st.rng
          else
            .ok (candidates0, st.rng)
        match chosen with
        | .error e => .error e st
        | .ok (candidates, rng') =>
          match delete_nodes self candidates { st with rng := rng' } with
          | .error e st => .error e st
          | .ok (result, _new_reason) st =>
            if result = .RES_OK then
              .ok (result, "Cluster scaling succeeded")
                (set_status .ACTIVE "Cluster scaling succeeded" st)
            else if result = .RES_CANCEL ∨ result = .RES_TIMEOUT ∨
                result = .RES_FAILED then
              .ok (result, reason) (set_status .ERROR reason st)
            else
              .ok (result, reason) st

/-- The binding scan of `do_attach_policy` (lines 599-608): walk the
cluster's existing bindings; an identical policy id returns OK
("Policy already attached"); otherwise load the bound policy and raise
`PolicyTypeConflict` when its type equals the new policy's type. -/
def find_binding_verdict (env : Env) (pol : Policy) (pid : String) :
    List ClusterPolicy → Except Halt (Option (Res × String))
  | [] => .ok none
  | b :: rest =>
    if b.policy_id = pid then
      .ok (some (.RES_OK, "Policy already attached"))
    else
      match env.policyById b.policy_id with
      | none => .error (.policyNotFound b.policy_id)
      | some curr =>
        if curr.type = pol.type then .error (.policyTypeConflict pol.type)
        else find_binding_verdict env pol pid rest

/-- `do_attach_policy(cluster)` (lines 593-628): load the policy, scan
the existing bindings (no-op on identical id, `PolicyTypeConflict` on
same type), run the attach hook, then build the binding values by
DIRECT INDEXING into the inputs — `self.inputs['priority']`,
`['cooldown']`, `['level']`, `['enabled']` — so an absent key raises
KeyError; on success store the binding. -/
def do_attach_policy (env : Env) (self : ActionCtx) (st : St) :
    EStateM.Result Halt St (Res × String) :=
  match self.inputs.policy_id with
  | none => .error (.policyNotFound "None") st
  | some pid =>
    match env.policyById pid with
    | none => .error (.policyNotFound pid) st
    | some policy =>
      match find_binding_verdict env policy pid st.bindings with
      | .error e => .error e st
      | .ok (some r) => .ok r st
      | .ok none =>
        if env.attachOk = false then
          .ok (.RES_ERROR, "Failed attaching policy.") st
        else
          match self.inputs.priority with
          | none => .error (.keyError "priority") st
          | some priority =>
            match self.inputs.cooldown with
            | none => .error (.keyError "cooldown") st
            | some cooldown =>
              match self.inputs.level with
              | none => .error (.keyError "level") st
              | some level =>
                match self.inputs.enabled with
                | none => .error (.keyError "enabled") st
                | some enabled =>
                  let cp : ClusterPolicy :=
                    { cluster_id := st.cluster.id, policy_id := pid,
                      priority := priority, cooldown := cooldown,
                      level := level, enabled := enabled,
                      data := env.attachData }
                  .ok (.RES_OK, "Policy attached.")
                    { st with bindings := st.bindings ++ [cp] }

/-- The verdict of one policy-gate check.  Modelled from the spec,
section 4.4: `check(cluster_id, phase) -> (status, reason, data)`;
the data component is an update to the action's scratch data (the
BEFORE phase may populate planning hints). -/
structure PolicyVerdict where
  status : CheckStatus
  reason : String
  update : ActionData → ActionData

/-- The effect of `self.policy_check(cluster_id, phase)` on the
action's scratch data: merge the policy output, then set the `status`
and `reason` keys to the verdict. -/
def policy_check_apply (v : PolicyVerdict) (d : ActionData) : ActionData :=
  { v.update d with status := some v.status, reason := some v.reason }

/-- `_execute(cluster)` (cluster_action.py lines 669-691): run the
BEFORE policy check and return ERROR with `'Policy failure: <reason>'`
when its status is not CHECK_OK (the handler is never invoked); else
run the handler (the source resolves it from the action name via
`getattr`; it is a parameter here), and if the handler returned OK run
the AFTER check, whose failure turns the result into ERROR carrying the
bare reason. -/
def cluster_execute (before after : PolicyVerdict)
    (handler : St → EStateM.Result Halt St (Res × String)) (st : St) :
    EStateM.Result Halt St (Res × String) :=
  let st := { st with data := policy_check_apply before st.data }
  if st.data.status ≠ some .CHECK_OK then
    .ok (.RES_ERROR, "Policy failure: " ++ (st.data.reason.getD "")) st
  else
    match handler st with
    | .error e st => .error e st
    | .ok (result, reason) st =>
      if result = .RES_OK then
        let st := { st with data := policy_check_apply after st.data }
        if st.data.status ≠ some .CHECK_OK then
          .ok (.RES_ERROR, st.data.reason.getD "") st
        else
          .ok (result, reason) st
      else
        .ok (result, reason) st

/-- The returned value of a run, `none` if it raised. -/
def res_value {A : Type} (r : EStateM.Result Halt St A) : Option A :=
  match r with
  | .ok v _ => some v
  | .error _ _ => none

/-- The final state of a run (also on a raise: Python exceptions do not
roll back already performed effects). -/
def res_state {A : Type} (r : EStateM.Result Halt St A) : St :=
  match r with
  | .ok _ s => s
  | .error _ s => s

/-- The exception a run raised, if any. -/
def res_halt {A : Type} (r : EStateM.Result Halt St A) : Option Halt :=
  match r with
  | .ok _ _ => none
  | .error e _ => some e

/-- Four-node cluster for the scale-in scenario of spec section 8
(end-to-end scenario 4). -/
def clC2 : Cluster :=
  { id := "C2", min_size := 0, max_size := 5, desired_capacity := 4,
    nodes := [{ id := "A" }, { id := "B" }, { id := "C" }, { id := "D" }] }

/-- A CLUSTER_SCALE_IN action context. -/
def selfC2 : ActionCtx := { action := "CLUSTER_SCALE_IN", id := "ACT2" }

/-- Scratch data as a deletion policy populates it per the spec's data
model: `deletion.count = 2`, `deletion.candidates = [B, D]` — and a
random stream plus one successful coordinator trace. -/
def stC2 : St :=
  { cluster := clC2,
    data := { deletion := some { count := some 2, candidates := some ["B", "D"] } },
    rng := [0, 0],
    traces := [[⟨.READY, false, false⟩]] }

/-- Default environment (all external calls succeed). -/
def envDefault : Env := {}

/-- Claim C2: with policy-supplied `deletion.count = 2` and
`deletion.candidates = [B, D]` in the scratch data, `do_scale_in`
succeeds but dispatches NODE_DELETE for randomly chosen victims A and B
(under the given random stream), not for B and D: the handler reads the
top-level `data['candidates']` key, which is absent, and falls back to
random victim selection, ignoring the nested candidates. -/
theorem C2_scale_in_ignores_deletion_candidates :
    res_value (do_scale_in envDefault selfC2 stC2) =
      some (.RES_OK, "Cluster scaling succeeded") ∧
    (res_state (do_scale_in envDefault selfC2 stC2)).dispatched.map
      SubAction.target = ["A", "B"] ∧
    (res_state (do_scale_in envDefault selfC2 stC2)).dispatched.map
      SubAction.action = ["NODE_DELETE", "NODE_DELETE"] ∧
    (["A", "B"] : List String) ≠ ["B", "D"] :=
  ⟨rfl, rfl, rfl, by decide⟩

/-- Two orphan ACTIVE nodes eligible to join a cluster. -/
def nodeN1 : Node := { id := "N1" }

/-- Second orphan ACTIVE node. -/
def nodeN2 : Node := { id := "N2" }

/-- Node store holding exactly N1 and N2. -/
def envC3 : Env :=
  { nodeById := fun s =>
      if s = "N1" then some nodeN1 else if s = "N2" then some nodeN2 else none }

/-- Empty cluster targeted by ADD_NODES. -/
def clC3 : Cluster :=
  { id := "CL3", min_size := 0, max_size := -1, desired_capacity := 0 }

/-- A CLUSTER_ADD_NODES action requesting N1 and N2. -/
def selfC3 : ActionCtx :=
  { action := "CLUSTER_ADD_NODES", id := "ACT3",
    inputs := { nodes := some ["N1", "N2"] } }

/-- State for the ADD_NODES run, with one successful coordinator trace. -/
def stC3 : St := { cluster := clC3, traces := [[⟨.READY, false, false⟩]] }

/-- The validation loop on `[N1, N2]` keeps both survivors, collects no
failure, and leaves the loop variable bound to the last loaded node N2. -/
theorem add_validate_C3_eval :
    add_validate envC3 "CL3" ["N1", "N2"] 0 [] none =
      (["N1", "N2"], [], some nodeN2) := by
  simp [add_validate, envC3, nodeN1, nodeN2]

/-- Claim C3: with two eligible surviving nodes N1 and N2, the
pre-validation passes and two NODE_JOIN sub-actions are dispatched, but
both target N2 — `node.id`, the node loaded last by the validation
loop — instead of one sub-action per survivor; the surviving ids are
still recorded in `data['nodes']` on OK. -/
theorem C3_add_nodes_targets_last_inspected_node :
    res_value (do_add_nodes envC3 selfC3 stC3) =
      some (.RES_OK, "Completed adding nodes") ∧
    (res_state (do_add_nodes envC3 selfC3 stC3)).dispatched.map
      SubAction.target = ["N2", "N2"] ∧
    (["N2", "N2"] : List String) ≠ ["N1", "N2"] ∧
    (res_state (do_add_nodes envC3 selfC3 stC3)).dispatched.map
      SubAction.inputs_cluster_id = [some "CL3", some "CL3"] ∧
    (res_state (do_add_nodes envC3 selfC3 stC3)).data.nodes =
      some ["N1", "N2"] := by
  have hstep : do_add_nodes envC3 selfC3 stC3 =
      add_nodes_after_validate selfC3 stC3 (["N1", "N2"], [], some nodeN2) := by
    rw [show do_add_nodes envC3 selfC3 stC3 =
        add_nodes_after_validate selfC3 stC3
          (add_validate envC3 "CL3" ["N1", "N2"] 0 [] none) from rfl,
      add_validate_C3_eval]
  refine ⟨?_, ?_, by decide, ?_, ?_⟩ <;> rw [hstep] <;> rfl

/-- Cluster whose min_size the scale-in counterexample violates. -/
def clC4 : Cluster :=
  { id := "C4", min_size := 1, max_size := 3, desired_capacity := 2,
    nodes := [{ id := "X1" }, { id := "X2" }] }

/-- A CLUSTER_SCALE_IN by 2 on a cluster of 2 nodes with min_size 1. -/
def selfC4 : ActionCtx :=
  { action := "CLUSTER_SCALE_IN", id := "ACT4", inputs := { count := some 2 } }

/-- State for the bounds-violating scale-in. -/
def stC4 : St :=
  { cluster := clC4, rng := [0, 0], traces := [[⟨.READY, false, false⟩]] }

/-- Claim C4 (counterexample): a CLUSTER_SCALE_IN by 2 on a 2-node
cluster with `min_size = 1` returns OK and leaves
`desired_capacity = 0 < 1 = min_size`: the scale handlers update the
desired capacity without any bounds check (`_update_cluster_properties`
is called with no bounds), so a successful operation does not preserve
the capacity invariant. -/
theorem C4_counterexample :
    res_value (do_scale_in envDefault selfC4 stC4) =
      some (.RES_OK, "Cluster scaling succeeded") ∧
    (res_state (do_scale_in envDefault selfC4 stC4)).cluster.desired_capacity = 0 ∧
    (res_state (do_scale_in envDefault selfC4 stC4)).cluster.min_size = 1 ∧
    ¬((res_state (do_scale_in envDefault selfC4 stC4)).cluster.min_size ≤
      (res_state (do_scale_in envDefault selfC4 stC4)).cluster.desired_capacity) :=
  ⟨rfl, rfl, rfl, by decide⟩

/-- One-node cluster for the DELETE scenarios. -/
def clC5 : Cluster :=
  { id := "C5", min_size := 0, max_size := -1, desired_capacity := 1,
    nodes := [{ id := "D1", cluster_id := some "C5" }] }

/-- A CLUSTER_DELETE action context. -/
def selfC5 : ActionCtx := { action := "CLUSTER_DELETE", id := "ACT5" }

/-- DELETE run whose coordinator succeeds. -/
def stC5ok : St := { cluster := clC5, traces := [[⟨.READY, false, false⟩]] }

/-- DELETE run cancelled while waiting. -/
def stC5cancel : St := { cluster := clC5, traces := [[⟨.WAITING, true, false⟩]] }

/-- DELETE run with a failed dependent. -/
def stC5err : St := { cluster := clC5, traces := [[⟨.FAILED, false, false⟩]] }

/-- DELETE run whose deadline elapses while waiting. -/
def stC5timeout : St := { cluster := clC5, traces := [[⟨.WAITING, false, true⟩]] }

/-- Claim C5: `do_delete` handles OK (cluster torn down), CANCEL
(cluster back to ACTIVE) and ERROR (cluster to WARNING) as claimed, but
on a coordinator TIMEOUT the bare `RES_TIMEOUT` return of
`_wait_for_dependents` blows up the tuple unpacking inside
`_delete_nodes`, so `do_delete` raises instead of setting the cluster
to WARNING: the cluster is left in DELETING and the only recorded
status transition is the initial one. -/
theorem C5_delete_outcomes :
    (res_value (do_delete envDefault selfC5 stC5ok) =
        some (.RES_OK, "All dependents ended with success") ∧
      (res_state (do_delete envDefault selfC5 stC5ok)).destroyed = true) ∧
    (res_value (do_delete envDefault selfC5 stC5cancel) =
        some (.RES_CANCEL, cancelled_reason "CLUSTER_DELETE" "ACT5") ∧
      (res_state (do_delete envDefault selfC5 stC5cancel)).cluster.status =
        .ACTIVE) ∧
    (res_value (do_delete envDefault selfC5 stC5err) =
        some (.RES_ERROR, failed_reason "CLUSTER_DELETE" "ACT5") ∧
      (res_state (do_delete envDefault selfC5 stC5err)).cluster.status =
        .WARNING) ∧
    (res_halt (do_delete envDefault selfC5 stC5timeout) =
        some (.valueError "too many values to unpack") ∧
      (res_state (do_delete envDefault selfC5 stC5timeout)).cluster.status =
        .DELETING ∧
      (res_state (do_delete envDefault selfC5 stC5timeout)).statusLog.map
        Prod.fst = [.DELETING]) :=
  ⟨⟨rfl, rfl⟩, ⟨rfl, rfl⟩, ⟨rfl, rfl⟩, ⟨rfl, rfl, rfl⟩⟩

/-- When `strict` checking is on and the provided desired capacity
violates the effective bounds (provided value, else the cluster's own;
a negative max is unbounded), `_check_size_params` returns ERROR with
one of its four target-capacity diagnostics. -/
theorem strict_check_fires (c : Cluster) (d : Int) (minI maxI : Option Int)
    (hout : d < minI.getD c.min_size ∨
      (0 ≤ maxI.getD c.max_size ∧ maxI.getD c.max_size < d)) :
    ∃ r, check_size_params c (some d) minI maxI true = (.RES_ERROR, r) ∧
      ((∃ m, r = tgt_lt_spec_min d m ∨ r = tgt_lt_clus_min d m) ∨
       (∃ m, r = tgt_gt_spec_max d m ∨ r = tgt_gt_clus_max d m)) := by
  cases minI with
  | some m =>
    by_cases hdm : d < m
    · exact ⟨tgt_lt_spec_min d m,
        by simp [check_size_params, strict_min_check, hdm, Option.orElse],
        .inl ⟨m, .inl rfl⟩⟩
    · have hmax : 0 ≤ maxI.getD c.max_size ∧ maxI.getD c.max_size < d := by
        rcases hout with h | h
        · simp only [Option.getD_some] at h; omega
        · exact h
      cases maxI with
      | some M =>
        refine ⟨tgt_gt_spec_max d M, ?_, .inr ⟨M, .inl rfl⟩⟩
        simp only [Option.getD_some] at hmax
        simp [check_size_params, strict_min_check, strict_max_check, hdm,
          Option.orElse]
        rw [if_pos (show M < d ∧ 0 ≤ M from ⟨hmax.2, hmax.1⟩)]
      | none =>
        refine ⟨tgt_gt_clus_max d c.max_size, ?_, .inr ⟨c.max_size, .inr rfl⟩⟩
        simp only [Option.getD_none] at hmax
        simp [check_size_params, strict_min_check, strict_max_check, hdm,
          Option.orElse]
        rw [if_pos (show c.max_size < d ∧ 0 ≤ c.max_size from ⟨hmax.2, hmax.1⟩)]
  | none =>
    by_cases hdm : d < c.min_size
    · exact ⟨tgt_lt_clus_min d c.min_size,
        by simp [check_size_params, strict_min_check, hdm, Option.orElse],
        .inl ⟨c.min_size, .inr rfl⟩⟩
    · have hmax : 0 ≤ maxI.getD c.max_size ∧ maxI.getD c.max_size < d := by
        rcases hout with h | h
        · simp only [Option.getD_none] at h; omega
        · exact h
      cases maxI with
      | some M =>
        refine ⟨tgt_gt_spec_max d M, ?_, .inr ⟨M, .inl rfl⟩⟩
        simp only [Option.getD_some] at hmax
        simp [check_size_params, strict_min_check, strict_max_check, hdm,
          Option.orElse]
        rw [if_pos (show M < d ∧ 0 ≤ M from ⟨hmax.2, hmax.1⟩)]
      | none =>
        refine ⟨tgt_gt_clus_max d c.max_size, ?_, .inr ⟨c.max_size, .inr rfl⟩⟩
        simp only [Option.getD_none] at hmax
        simp [check_size_params, strict_min_check, strict_max_check, hdm,
          Option.orElse]
        rw [if_pos (show c.max_size < d ∧ 0 ≤ c.max_size from ⟨hmax.2, hmax.1⟩)]

/-- Claim C6: a CLUSTER_RESIZE with `strict = true` whose computed
desired capacity falls outside the target bounds (the provided
min_size/max_size, falling back to the cluster's own bounds, a
negative max meaning unbounded) returns ERROR with a diagnostic naming
the offending bound, and the state is returned completely untouched: no
cluster field is changed or persisted, no status is set and no
sub-action is dispatched. -/
theorem C6_strict_resize_rejected (env : Env) (self : ActionCtx) (st : St) (d : Int)
    (hstrict : self.inputs.strict = some true)
    (hd : resize_desired self st.cluster = .ok d)
    (hout : d < self.inputs.min_size.getD st.cluster.min_size ∨
      (0 ≤ self.inputs.max_size.getD st.cluster.max_size ∧
        self.inputs.max_size.getD st.cluster.max_size < d)) :
    ∃ r, do_resize env self st = .ok (.RES_ERROR, r) st ∧
      ((∃ m, r = tgt_lt_spec_min d m ∨ r = tgt_lt_clus_min d m) ∨
       (∃ m, r = tgt_gt_spec_max d m ∨ r = tgt_gt_clus_max d m)) := by
  obtain ⟨r, hr, hform⟩ :=
    strict_check_fires st.cluster d self.inputs.min_size self.inputs.max_size hout
  refine ⟨r, ?_, hform⟩
  simp only [do_resize, hd, hstrict, Option.getD_some]
  simp [hr]

/-- Cluster of spec scenario 3 (min 2, max 5, desired 3). -/
def clC6 : Cluster :=
  { id := "C6", min_size := 2, max_size := 5, desired_capacity := 3,
    nodes := [{ id := "Y1" }, { id := "Y2" }, { id := "Y3" }] }

/-- CLUSTER_RESIZE to exact capacity 1 with strict checking. -/
def selfC6 : ActionCtx :=
  { action := "CLUSTER_RESIZE", id := "ACT6",
    inputs := { adjustment_type := some .EXACT_CAPACITY, number := some 1,
                strict := some true } }

/-- State for the strict resize rejection. -/
def stC6 : St := { cluster := clC6 }

/-- Witness for `C6_strict_resize_rejected`: resizing the (2,5,3)
cluster to exact capacity 1 with strict checking is rejected without
side effects. -/
theorem C6_strict_resize_rejected_witness :
    (selfC6.inputs.strict = some true ∧
      resize_desired selfC6 stC6.cluster = .ok 1 ∧
      ((1 : Int) < selfC6.inputs.min_size.getD stC6.cluster.min_size ∨
        (0 ≤ selfC6.inputs.max_size.getD stC6.cluster.max_size ∧
          selfC6.inputs.max_size.getD stC6.cluster.max_size < 1))) ∧
    (∃ r, do_resize envDefault selfC6 stC6 = .ok (.RES_ERROR, r) stC6 ∧
      ((∃ m, r = tgt_lt_spec_min 1 m ∨ r = tgt_lt_clus_min 1 m) ∨
       (∃ m, r = tgt_gt_spec_max 1 m ∨ r = tgt_gt_clus_max 1 m))) :=
  ⟨⟨rfl, rfl, by decide⟩,
    C6_strict_resize_rejected envDefault selfC6 stC6 1 rfl rfl (by decide)⟩

/-- A `_wait_for_dependents` call never touches the cluster object. -/
theorem run_wait_cluster (self : ActionCtx) (st : St) :
    (res_state (run_wait self st)).cluster = st.cluster := by
  unfold run_wait
  split
  · rfl
  · split <;> rfl

/-- The wait-and-record tail never touches the cluster object. -/
theorem wait_and_record_cluster (self : ActionCtx) (ns : List String) (st : St) :
    (res_state (wait_and_record self ns st)).cluster = st.cluster := by
  have hrw := run_wait_cluster self st
  unfold wait_and_record
  split
  next e st2 heq => rw [heq] at hrw; exact hrw
  next w st2 heq =>
    rw [heq] at hrw
    split
    · exact hrw
    · split <;> exact hrw

/-- `_delete_nodes` never touches the cluster object. -/
theorem delete_nodes_cluster (self : ActionCtx) (ns : List String) (st : St) :
    (res_state (delete_nodes self ns st)).cluster = st.cluster := by
  simp only [delete_nodes]
  repeat' split
  all_goals first
    | rfl
    | exact wait_and_record_cluster self ns _

/-- The creation loop never touches the cluster object in the state. -/
theorem create_loop_cluster (cl : Cluster) (p : Option (List String)) :
    ∀ (n m : Nat) (acc : List String) (st : St),
      (res_state (create_loop cl p n m acc st)).cluster = st.cluster := by
  intro n
  induction n with
  | zero => intro m acc st; rfl
  | succ n ih =>
    intro m acc st
    unfold create_loop
    cases p with
    | some pl =>
      by_cases hm : m < pl.length
      · simp only [hm, if_true]
        exact ih _ _ _
      · simp only [hm, if_false]
        rfl
    | none => exact ih _ _ _

/-- `_create_nodes` never touches the cluster object. -/
theorem create_nodes_cluster (self : ActionCtx) (cl : Cluster) (count : Int) (st : St) :
    (res_state (create_nodes self cl count st)).cluster = st.cluster := by
  have hloop := create_loop_cluster cl st.data.placement count.toNat 0 [] st
  simp only [create_nodes]
  split
  next e st2 heq =>
    rw [heq] at hloop
    exact hloop
  next nodes st2 heq =>
    rw [heq] at hloop
    simp only [res_state] at hloop
    split
    · exact (wait_and_record_cluster self nodes st2).trans hloop
    · exact hloop

/-- The shrink step of `do_resize` never touches the cluster object. -/
theorem resize_shrink_cluster (self : ActionCtx) (reason0 : String) (st : St) :
    (res_state (resize_shrink self reason0 st)).cluster = st.cluster := by
  simp only [resize_shrink]
  repeat' split
  all_goals first
    | rfl
    | exact delete_nodes_cluster self _ _

/-- The grow step of `do_resize` never touches the cluster object. -/
theorem resize_grow_cluster (self : ActionCtx) (reason0 : String) (st : St) :
    (res_state (resize_grow self reason0 st)).cluster = st.cluster := by
  simp only [resize_grow]
  repeat' split
  all_goals first
    | rfl
    | exact create_nodes_cluster self _ _ _

/-- `set_status` changes only the status fields of the cluster. -/
theorem set_status_capacity (c : ClusterStatus) (r : String) (st : St) :
    (set_status c r st).cluster.min_size = st.cluster.min_size ∧
    (set_status c r st).cluster.max_size = st.cluster.max_size ∧
    (set_status c r st).cluster.desired_capacity = st.cluster.desired_capacity :=
  ⟨rfl, rfl, rfl⟩

/-- The fan-out tail of `do_resize` preserves the capacity fields of
the cluster: only the final `set_status` touches the cluster, and it
changes only status and status_reason. -/
theorem resize_fanout_capacity (self : ActionCtx) (reason0 : String) (st : St) :
    (res_state (resize_fanout self reason0 st)).cluster.min_size =
      st.cluster.min_size ∧
    (res_state (resize_fanout self reason0 st)).cluster.max_size =
      st.cluster.max_size ∧
    (res_state (resize_fanout self reason0 st)).cluster.desired_capacity =
      st.cluster.desired_capacity := by
  have h1 := resize_shrink_cluster self reason0 st
  unfold resize_fanout
  split
  next e st2 heq =>
    rw [heq] at h1
    simp only [res_state] at h1 ⊢
    rw [h1]
    exact ⟨rfl, rfl, rfl⟩
  next res1 reason1 st2 heq =>
    rw [heq] at h1
    simp only [res_state] at h1
    split
    · simp only [res_state]
      rw [h1]
      exact ⟨rfl, rfl, rfl⟩
    · have h2 := resize_grow_cluster self reason1 st2
      split
      next e st3 heq2 =>
        rw [heq2] at h2
        simp only [res_state] at h2 ⊢
        rw [h2, h1]
        exact ⟨rfl, rfl, rfl⟩
      next res2 reason2 st3 heq2 =>
        rw [heq2] at h2
        simp only [res_state] at h2
        split
        · simp only [res_state]
          rw [h2, h1]
          exact ⟨rfl, rfl, rfl⟩
        · simp only [res_state]
          refine ⟨?_, ?_, ?_⟩
          · show st3.cluster.min_size = st.cluster.min_size
            rw [h2, h1]
          · show st3.cluster.max_size = st.cluster.max_size
            rw [h2, h1]
          · show st3.cluster.desired_capacity = st.cluster.desired_capacity
            rw [h2, h1]

/-- When `_update_cluster_properties` succeeds, the cluster's bounds
are the provided values (falling back to the previous ones) and the
desired capacity is the provided value. -/
theorem update_props_fields (env : Env) (d : Int) (minI maxI : Option Int)
    (st : St) (reason : String) (st' : St)
    (h : update_cluster_properties env (some d) minI maxI st =
      .ok (.RES_OK, reason) st') :
    st'.cluster.min_size = minI.getD st.cluster.min_size ∧
    st'.cluster.max_size = maxI.getD st.cluster.max_size ∧
    st'.cluster.desired_capacity = d := by
  cases minI <;> cases maxI <;>
    simp only [update_cluster_properties, Option.getD_some, Option.getD_none] <;>
    simp only [update_cluster_properties] at h <;>
    split_ifs at h <;>
    simp only [EStateM.Result.ok.injEq, Prod.mk.injEq] at h <;>
    first
      | (obtain ⟨⟨-, -⟩, hst⟩ := h
         subst hst
         refine ⟨?_, ?_, ?_⟩ <;> simp_all <;> omega)
      | simp_all

/-- When `_check_size_params` passes in non-strict mode and the
cluster's own bounds were consistent, the effective bounds (provided
values falling back to the cluster's) are consistent: the effective max
is negative (unbounded) or at least the effective min. -/
theorem nonstrict_check_consistent (c : Cluster) (d0 : Int) (minI maxI : Option Int)
    (s : String)
    (hcons : c.max_size < 0 ∨ c.min_size ≤ c.max_size)
    (h : check_size_params c (some d0) minI maxI false = (.RES_OK, s)) :
    maxI.getD c.max_size < 0 ∨ minI.getD c.min_size ≤ maxI.getD c.max_size := by
  cases minI <;> cases maxI <;>
    simp only [check_size_params, min_size_block, max_size_block,
      Option.getD_some, Option.getD_none, Bool.false_eq_true, if_false] at h ⊢ <;>
    (try split_ifs at h) <;>
    (try simp_all) <;>
    (try omega)

/-- The truncation result lies within consistent effective bounds. -/
theorem truncate_desired_bounds (c : Cluster) (d0 : Int) (minI maxI : Option Int)
    (hcons : maxI.getD c.max_size < 0 ∨
      minI.getD c.min_size ≤ maxI.getD c.max_size) :
    minI.getD c.min_size ≤ truncate_desired c d0 minI maxI ∧
    (maxI.getD c.max_size < 0 ∨
      truncate_desired c d0 minI maxI ≤ maxI.getD c.max_size) := by
  simp only [truncate_desired]
  split_ifs <;> constructor <;> omega

/-- When `_check_size_params` passes in strict mode, the desired
capacity satisfies the effective bounds. -/
theorem strict_check_ok_bounds (c : Cluster) (d : Int) (minI maxI : Option Int)
    (s : String)
    (h : check_size_params c (some d) minI maxI true = (.RES_OK, s)) :
    minI.getD c.min_size ≤ d ∧
    (maxI.getD c.max_size < 0 ∨ d ≤ maxI.getD c.max_size) := by
  by_cases h1 : d < minI.getD c.min_size
  · obtain ⟨r, hr, -⟩ := strict_check_fires c d minI maxI (.inl h1)
    rw [hr] at h
    exact absurd (congrArg Prod.fst h) (by simp)
  · by_cases h2 : 0 ≤ maxI.getD c.max_size ∧ maxI.getD c.max_size < d
    · obtain ⟨r, hr, -⟩ := strict_check_fires c d minI maxI (.inr h2)
      rw [hr] at h
      exact absurd (congrArg Prod.fst h) (by simp)
    · constructor
      · omega
      · omega

/-- Claim C4 (amended): a CLUSTER_RESIZE that returns OK leaves the
cluster satisfying `min_size ≤ desired_capacity` and (`max_size < 0` or
`desired_capacity ≤ max_size`), provided the cluster's own bounds were
consistent beforehand: the non-strict path truncates the desired
capacity into the effective bounds and the strict path validates it
against them, and no later step of the handler touches the capacity
fields.  (The scale handlers do not enjoy this property — see the
counterexample.) -/
theorem C4_amended_resize_invariant (env : Env) (self : ActionCtx)
    (st st' : St) (r : String)
    (hcons : st.cluster.max_size < 0 ∨ st.cluster.min_size ≤ st.cluster.max_size)
    (h : do_resize env self st = .ok (.RES_OK, r) st') :
    st'.cluster.min_size ≤ st'.cluster.desired_capacity ∧
    (st'.cluster.max_size < 0 ∨
      st'.cluster.desired_capacity ≤ st'.cluster.max_size) := by
  simp only [do_resize] at h
  rcases hd : resize_desired self st.cluster with e | d0 <;> rw [hd] at h
  · exact absurd h (by simp)
  dsimp only at h
  set D := (if self.inputs.strict.getD false = false then
      truncate_desired st.cluster d0 self.inputs.min_size self.inputs.max_size
    else d0) with hD
  rcases hc : check_size_params st.cluster (some D) self.inputs.min_size
      self.inputs.max_size (self.inputs.strict.getD false) with ⟨cres, cs⟩
  rw [hc] at h
  dsimp only at h
  by_cases hcres : cres = .RES_OK
  on_goal 2 =>
    rw [if_pos hcres] at h
    simp only [EStateM.Result.ok.injEq, Prod.mk.injEq] at h
    exact absurd h.1.1 hcres
  subst hcres
  rw [if_neg (by simp)] at h
  rcases hu : update_cluster_properties env (some D) self.inputs.min_size
      self.inputs.max_size st with ⟨⟨ures, ureason⟩, st2⟩ | ⟨e, st2⟩ <;>
    rw [hu] at h
  on_goal 2 => exact absurd h (by simp)
  dsimp only at h
  by_cases hur : ures = .RES_OK
  on_goal 2 =>
    rw [if_pos hur] at h
    simp only [EStateM.Result.ok.injEq, Prod.mk.injEq] at h
    exact absurd h.1.1 hur
  subst hur
  rw [if_neg (by simp)] at h
  have hfan := resize_fanout_capacity self ureason st2
  rw [h] at hfan
  simp only [res_state] at hfan
  obtain ⟨hf1, hf2, hf3⟩ := hfan
  obtain ⟨hu1, hu2, hu3⟩ := update_props_fields env D self.inputs.min_size
    self.inputs.max_size st ureason st2 hu
  rw [hf1, hf2, hf3, hu1, hu2, hu3]
  cases hb : self.inputs.strict.getD false
  · rw [hb] at hD hc
    simp only [if_true, eq_self_iff_true] at hD
    have hcc := nonstrict_check_consistent st.cluster D self.inputs.min_size
      self.inputs.max_size cs hcons hc
    have hbnd := truncate_desired_bounds st.cluster d0 self.inputs.min_size
      self.inputs.max_size hcc
    rw [← hD] at hbnd
    exact hbnd
  · rw [hb] at hD hc
    exact strict_check_ok_bounds st.cluster D self.inputs.min_size
      self.inputs.max_size cs hc

/-- Cluster for the C4 resize witness (min 1, max 5, desired 3). -/
def clC4w : Cluster :=
  { id := "C4W", min_size := 1, max_size := 5, desired_capacity := 3,
    nodes := [{ id := "W1" }, { id := "W2" }, { id := "W3" }] }

/-- Strict CLUSTER_RESIZE to the current exact capacity. -/
def selfC4w : ActionCtx :=
  { action := "CLUSTER_RESIZE", id := "ACT4W",
    inputs := { adjustment_type := some .EXACT_CAPACITY, number := some 3,
                strict := some true } }

/-- State for the C4 resize witness. -/
def stC4w : St := { cluster := clC4w }

/-- Witness for `C4_amended_resize_invariant`: an in-bounds strict
resize on a consistent cluster returns OK and the invariant holds on
the final state. -/
theorem C4_amended_resize_invariant_witness :
    (stC4w.cluster.max_size < 0 ∨
      stC4w.cluster.min_size ≤ stC4w.cluster.max_size) ∧
    ((set_status .ACTIVE "" stC4w).cluster.min_size ≤
        (set_status .ACTIVE "" stC4w).cluster.desired_capacity ∧
      ((set_status .ACTIVE "" stC4w).cluster.max_size < 0 ∨
        (set_status .ACTIVE "" stC4w).cluster.desired_capacity ≤
          (set_status .ACTIVE "" stC4w).cluster.max_size)) :=
  ⟨by decide,
    C4_amended_resize_invariant envDefault selfC4w stC4w
      (set_status .ACTIVE "" stC4w) "Cluster resize succeeded" (by decide) rfl⟩

/-- Claim C8: for every handler (quantified: whatever sub-actions it
would dispatch) and every BEFORE-phase policy verdict whose status is
not CHECK_OK, `_execute` returns ERROR carrying the policy's reason
with the `'Policy failure: '` prefix, the handler is never invoked, and
the dispatched sub-action log is exactly the incoming one: no DERIVED
sub-action is created or dispatched. -/
theorem C8_before_policy_failure_blocks (before after : PolicyVerdict)
    (handler : St → EStateM.Result Halt St (Res × String)) (st : St)
    (h : before.status ≠ .CHECK_OK) :
    cluster_execute before after handler st =
      .ok (.RES_ERROR, "Policy failure: " ++ before.reason)
        { st with data := policy_check_apply before st.data } ∧
    ({ st with data := policy_check_apply before st.data } : St).dispatched =
      st.dispatched := by
  refine ⟨?_, rfl⟩
  simp only [cluster_execute]
  split
  · rfl
  · next hcond =>
    exfalso
    simp only [policy_check_apply, ne_eq, Option.some.injEq, not_not] at hcond
    exact h hcond

/-- A BEFORE verdict that denies the action. -/
def beforeFail : PolicyVerdict :=
  { status := .CHECK_ERROR, reason := "deletion policy denied", update := id }

/-- An AFTER verdict that allows the action. -/
def afterOk : PolicyVerdict := { status := .CHECK_OK, reason := "", update := id }

/-- State for the C8 witness. -/
def stC8 : St :=
  { cluster := { id := "C8", min_size := 0, max_size := -1, desired_capacity := 0 } }

/-- A handler that would dispatch a sub-action if it ever ran. -/
def handlerC8 : St → EStateM.Result Halt St (Res × String) := fun st =>
  .ok (.RES_OK, "handled")
    { st with dispatched := st.dispatched ++
        [{ name := "n", action := "NODE_CREATE", target := "t" }] }

/-- Witness for `C8_before_policy_failure_blocks` with a handler that
would dispatch a NODE_CREATE: the failing BEFORE check suppresses it. -/
theorem C8_before_policy_failure_blocks_witness :
    (beforeFail.status ≠ .CHECK_OK) ∧
    (cluster_execute beforeFail afterOk handlerC8 stC8 =
      .ok (.RES_ERROR, "Policy failure: " ++ beforeFail.reason)
        { stC8 with data := policy_check_apply beforeFail stC8.data } ∧
    ({ stC8 with data := policy_check_apply beforeFail stC8.data } : St).dispatched =
      stC8.dispatched) :=
  ⟨by decide,
    C8_before_policy_failure_blocks beforeFail afterOk handlerC8 stC8 (by decide)⟩

/-- The policy type recorded for a binding, via the policy store. -/
def bound_policy_type (env : Env) (b : ClusterPolicy) : Option String :=
  (env.policyById b.policy_id).map Policy.type

/-- When a binding with the identical policy id is present (and, per
the data-model invariant, distinct bound policies have distinct types),
the binding scan of `do_attach_policy` returns the OK no-op verdict. -/
theorem find_binding_identical (env : Env) (pol : Policy) (pid : String)
    (l : List ClusterPolicy)
    (hinv : ∀ b1 ∈ l, ∀ b2 ∈ l, b1.policy_id ≠ b2.policy_id →
      bound_policy_type env b1 ≠ bound_policy_type env b2)
    (hload : ∀ b ∈ l, (env.policyById b.policy_id).isSome)
    (hpol : env.policyById pid = some pol)
    (hex : ∃ b ∈ l, b.policy_id = pid) :
    find_binding_verdict env pol pid l =
      .ok (some (.RES_OK, "Policy already attached")) := by
  induction l with
  | nil => simp at hex
  | cons b rest ih =>
    by_cases hb : b.policy_id = pid
    · simp [find_binding_verdict, hb]
    · obtain ⟨bw, hbw, hbwid⟩ := hex
      have hbw_rest : bw ∈ rest := by
        rcases List.mem_cons.mp hbw with hhead | htail
        · exact absurd (hhead ▸ hbwid) hb
        · exact htail
      obtain ⟨curr, hcurr⟩ :=
        Option.isSome_iff_exists.mp (hload b (List.mem_cons_self b rest))
      have hne : b.policy_id ≠ bw.policy_id := by
        rw [hbwid]; exact hb
      have htype : bound_policy_type env b ≠ bound_policy_type env bw :=
        hinv b (List.mem_cons_self b rest) bw hbw hne
      have hcurr_ne : curr.type ≠ pol.type := by
        intro hct
        apply htype
        simp [bound_policy_type, hcurr, hbwid, hpol, hct]
      simp only [find_binding_verdict, hb, if_false, hcurr, hcurr_ne, ite_false]
      exact ih
        (fun b1 hb1 b2 hb2 => hinv b1 (List.mem_cons_of_mem b hb1)
          b2 (List.mem_cons_of_mem b hb2))
        (fun b1 hb1 => hload b1 (List.mem_cons_of_mem b hb1))
        ⟨bw, hbw_rest, hbwid⟩

/-- When no binding has the identical policy id but one has the same
policy type, the binding scan of `do_attach_policy` raises
`PolicyTypeConflict`. -/
theorem find_binding_conflict (env : Env) (pol : Policy) (pid : String)
    (l : List ClusterPolicy)
    (hload : ∀ b ∈ l, (env.policyById b.policy_id).isSome)
    (hnoid : ∀ b ∈ l, b.policy_id ≠ pid)
    (hex : ∃ b ∈ l, bound_policy_type env b = some pol.type) :
    find_binding_verdict env pol pid l =
      .error (.policyTypeConflict pol.type) := by
  induction l with
  | nil => simp at hex
  | cons b rest ih =>
    have hb := hnoid b (List.mem_cons_self b rest)
    obtain ⟨curr, hcurr⟩ :=
      Option.isSome_iff_exists.mp (hload b (List.mem_cons_self b rest))
    by_cases ht : curr.type = pol.type
    · simp [find_binding_verdict, hb, hcurr, ht]
    · have hex_rest : ∃ b2 ∈ rest, bound_policy_type env b2 = some pol.type := by
        obtain ⟨bw, hbw, hbwt⟩ := hex
        rcases List.mem_cons.mp hbw with hhead | htail
        · subst hhead
          rw [bound_policy_type, hcurr] at hbwt
          simp at hbwt
          exact absurd hbwt ht
        · exact ⟨bw, htail, hbwt⟩
      simp only [find_binding_verdict, hb, if_false, hcurr, ht, ite_false]
      exact ih
        (fun b1 hb1 => hload b1 (List.mem_cons_of_mem b hb1))
        (fun b1 hb1 => hnoid b1 (List.mem_cons_of_mem b hb1))
        hex_rest

/-- Claim C7: for a CLUSTER_ATTACH_POLICY whose bindings satisfy the
data-model invariant (distinct bound policies have distinct types), an
existing binding with the identical policy id makes the handler return
OK ("Policy already attached") with the state — in particular the
binding table — unchanged, while an existing binding with a different
policy id but the same policy type makes the handler raise the distinct
`PolicyTypeConflict` kind, also leaving the state unchanged. -/
theorem C7_attach_policy_conflict_handling (env : Env) (self : ActionCtx)
    (st : St) (pid : String) (pol : Policy)
    (hpid : self.inputs.policy_id = some pid)
    (hpol : env.policyById pid = some pol)
    (hload : ∀ b ∈ st.bindings, (env.policyById b.policy_id).isSome)
    (hinv : ∀ b1 ∈ st.bindings, ∀ b2 ∈ st.bindings,
      b1.policy_id ≠ b2.policy_id →
      bound_policy_type env b1 ≠ bound_policy_type env b2) :
    ((∃ b ∈ st.bindings, b.policy_id = pid) →
      do_attach_policy env self st =
        .ok (.RES_OK, "Policy already attached") st) ∧
    ((∃ b ∈ st.bindings, b.policy_id ≠ pid ∧
        bound_policy_type env b = some pol.type) →
      do_attach_policy env self st =
        .error (.policyTypeConflict pol.type) st) := by
  constructor
  · intro hex
    have hv := find_binding_identical env pol pid st.bindings hinv hload hpol hex
    simp [do_attach_policy, hpid, hpol, hv]
  · intro hex
    have hnoid : ∀ b ∈ st.bindings, b.policy_id ≠ pid := by
      intro b hb hbid
      obtain ⟨bc, hbc, hbcne, hbct⟩ := hex
      have hbty : bound_policy_type env b = some pol.type := by
        simp [bound_policy_type, hbid, hpol]
      have hne : bc.policy_id ≠ b.policy_id := by
        rw [hbid]; exact hbcne
      exact hinv bc hbc b hb hne (hbct.trans hbty.symm)
    have hv := find_binding_conflict env pol pid st.bindings hload hnoid
      ⟨hex.choose, hex.choose_spec.1, hex.choose_spec.2.2⟩
    simp [do_attach_policy, hpid, hpol, hv]

/-- A scaling policy P1 already bound to the cluster. -/
def polP1 : Policy := { id := "P1", type := "ScalingPolicy" }

/-- A second scaling policy P2 of the same type. -/
def polP2 : Policy := { id := "P2", type := "ScalingPolicy" }

/-- Policy store holding P1 and P2. -/
def envC7 : Env :=
  { policyById := fun s =>
      if s = "P1" then some polP1 else if s = "P2" then some polP2 else none }

/-- The existing binding of P1. -/
def bindP1 : ClusterPolicy := { cluster_id := "C7", policy_id := "P1" }

/-- CLUSTER_ATTACH_POLICY for P2 with full binding inputs. -/
def selfC7 : ActionCtx :=
  { action := "CLUSTER_ATTACH_POLICY", id := "ACT7",
    inputs := { policy_id := some "P2", priority := some 50,
                cooldown := some 0, level := some 0, enabled := some true } }

/-- State for the attach-conflict scenario: cluster bound to P1. -/
def stC7 : St :=
  { cluster := { id := "C7", min_size := 0, max_size := -1, desired_capacity := 0 },
    bindings := [bindP1] }

/-- Witness for `C7_attach_policy_conflict_handling`: attaching P2 to a
cluster already bound to the same-typed P1 (spec scenario 6). -/
theorem C7_attach_policy_conflict_handling_witness :
    (selfC7.inputs.policy_id = some "P2" ∧
      envC7.policyById "P2" = some polP2 ∧
      (∀ b ∈ stC7.bindings, (envC7.policyById b.policy_id).isSome) ∧
      (∀ b1 ∈ stC7.bindings, ∀ b2 ∈ stC7.bindings,
        b1.policy_id ≠ b2.policy_id →
        bound_policy_type envC7 b1 ≠ bound_policy_type envC7 b2)) ∧
    (((∃ b ∈ stC7.bindings, b.policy_id = "P2") →
        do_attach_policy envC7 selfC7 stC7 =
          .ok (.RES_OK, "Policy already attached") stC7) ∧
      ((∃ b ∈ stC7.bindings, b.policy_id ≠ "P2" ∧
          bound_policy_type envC7 b = some polP2.type) →
        do_attach_policy envC7 selfC7 stC7 =
          .error (.policyTypeConflict polP2.type) stC7)) :=
  ⟨⟨rfl, rfl, by decide, by decide⟩,
    C7_attach_policy_conflict_handling envC7 selfC7 stC7 "P2" polP2
      rfl rfl (by decide) (by decide)⟩

/-- Claim C10: when `do_attach_policy` reaches and passes the attach
hook (the binding scan found neither an identical id nor a type
conflict, and the hook succeeded), the handler reads the inputs keys
`priority`, `cooldown`, `level` and `enabled` by direct indexing: with
all four keys present it returns the normal (OK, "Policy attached.")
pair and stores the binding built from them; with any of them absent it
raises a key-lookup error on the first missing key instead of returning
an ERROR result, leaving the state unchanged. -/
theorem C10_attach_policy_input_keys (env : Env) (self : ActionCtx) (st : St)
    (pid : String) (pol : Policy)
    (hpid : self.inputs.policy_id = some pid)
    (hpol : env.policyById pid = some pol)
    (hscan : find_binding_verdict env pol pid st.bindings = .ok none)
    (hattach : env.attachOk = true) :
    ((self.inputs.priority.isSome ∧ self.inputs.cooldown.isSome ∧
        self.inputs.level.isSome ∧ self.inputs.enabled.isSome) →
      do_attach_policy env self st =
        .ok (.RES_OK, "Policy attached.")
          { st with bindings := st.bindings ++
              [{ cluster_id := st.cluster.id, policy_id := pid,
                 priority := self.inputs.priority.getD 0,
                 cooldown := self.inputs.cooldown.getD 0,
                 level := self.inputs.level.getD 0,
                 enabled := self.inputs.enabled.getD true,
                 data := env.attachData }] }) ∧
    (¬(self.inputs.priority.isSome ∧ self.inputs.cooldown.isSome ∧
        self.inputs.level.isSome ∧ self.inputs.enabled.isSome) →
      ∃ k, (k = "priority" ∨ k = "cooldown" ∨ k = "level" ∨ k = "enabled") ∧
        do_attach_policy env self st = .error (.keyError k) st) := by
  constructor
  · rintro ⟨hp, hc, hl, he⟩
    obtain ⟨p, hp⟩ := Option.isSome_iff_exists.mp hp
    obtain ⟨cd, hc⟩ := Option.isSome_iff_exists.mp hc
    obtain ⟨lv, hl⟩ := Option.isSome_iff_exists.mp hl
    obtain ⟨en, he⟩ := Option.isSome_iff_exists.mp he
    simp [do_attach_policy, hpid, hpol, hscan, hattach, hp, hc, hl, he]
  · intro hmiss
    cases hp : self.inputs.priority with
    | none =>
      exact ⟨"priority", by simp,
        by simp [do_attach_policy, hpid, hpol, hscan, hattach, hp]⟩
    | some p =>
      cases hc : self.inputs.cooldown with
      | none =>
        exact ⟨"cooldown", by simp,
          by simp [do_attach_policy, hpid, hpol, hscan, hattach, hp, hc]⟩
      | some cd =>
        cases hl : self.inputs.level with
        | none =>
          exact ⟨"level", by simp,
            by simp [do_attach_policy, hpid, hpol, hscan, hattach, hp, hc, hl]⟩
        | some lv =>
          cases he : self.inputs.enabled with
          | none =>
            exact ⟨"enabled", by simp,
              by simp [do_attach_policy, hpid, hpol, hscan, hattach,
                hp, hc, hl, he]⟩
          | some en =>
            exact absurd
              ⟨by simp [hp], by simp [hc], by simp [hl], by simp [he]⟩ hmiss

/-- A deletion policy P9. -/
def polP9 : Policy := { id := "P9", type := "DeletionPolicy" }

/-- Policy store holding only P9. -/
def envC10 : Env :=
  { policyById := fun s => if s = "P9" then some polP9 else none }

/-- CLUSTER_ATTACH_POLICY for P9 carrying only a `priority` input:
`cooldown`, `level` and `enabled` are absent. -/
def selfC10 : ActionCtx :=
  { action := "CLUSTER_ATTACH_POLICY", id := "ACT10",
    inputs := { policy_id := some "P9", priority := some 5 } }

/-- State for the missing-keys attach: no existing binding. -/
def stC10 : St :=
  { cluster := { id := "CX", min_size := 0, max_size := -1, desired_capacity := 0 } }

/-- Witness for `C10_attach_policy_input_keys` on an attach whose
inputs lack `cooldown`, `level` and `enabled`. -/
theorem C10_attach_policy_input_keys_witness :
    (selfC10.inputs.policy_id = some "P9" ∧
      envC10.policyById "P9" = some polP9 ∧
      find_binding_verdict envC10 polP9 "P9" stC10.bindings = .ok none ∧
      envC10.attachOk = true) ∧
    (((selfC10.inputs.priority.isSome ∧ selfC10.inputs.cooldown.isSome ∧
        selfC10.inputs.level.isSome ∧ selfC10.inputs.enabled.isSome) →
      do_attach_policy envC10 selfC10 stC10 =
        .ok (.RES_OK, "Policy attached.")
          { stC10 with bindings := stC10.bindings ++
              [{ cluster_id := stC10.cluster.id, policy_id := "P9",
                 priority := selfC10.inputs.priority.getD 0,
                 cooldown := selfC10.inputs.cooldown.getD 0,
                 level := selfC10.inputs.level.getD 0,
                 enabled := selfC10.inputs.enabled.getD true,
                 data := envC10.attachData }] }) ∧
    (¬(selfC10.inputs.priority.isSome ∧ selfC10.inputs.cooldown.isSome ∧
        selfC10.inputs.level.isSome ∧ selfC10.inputs.enabled.isSome) →
      ∃ k, (k = "priority" ∨ k = "cooldown" ∨ k = "level" ∨ k = "enabled") ∧
        do_attach_policy envC10 selfC10 stC10 = .error (.keyError k) stC10)) :=
  ⟨⟨rfl, rfl, rfl, rfl⟩,
    C10_attach_policy_input_keys envC10 selfC10 stC10 "P9" polP9
      rfl rfl rfl rfl⟩
